import Mathlib

/-!
# gpu-idle-exporter — verification of the idle-tracking core

Shallow embedding of the idle-state tracking engine of
`affinode/gpu-idle-exporter`:

* the sample merger (`internal/collector/collector.go`,
  `Collector.collectProcesses`): merging the list of memory-holding
  processes with the windowed per-process utilization samples, and the
  per-device high-water-mark timestamp update;
* the idle tracker (`internal/idle/tracker.go`, `Tracker.Update`): the
  per-`(GPU, PID)` state machine classifying processes as active or idle
  across polling cycles, and the staleness sweep.

Go `time.Time` values and `time.Duration` values are modelled as `Int`
nanosecond counts (the tracker only ever subtracts two cycle timestamps),
`uint32`/`uint64` fields as `Nat`, and Go maps as functions into `Option`.
-/

namespace GpuIdleExporter

/-! ## Collector data model (`internal/collector/collector.go`) -/

/-- `collector.ProcessSample`: per-process data from NVML for a single GPU. -/
structure ProcessSample where
  gpu : Int
  pid : Nat
  usedMemory : Nat
  smUtil : Nat
deriving DecidableEq, Repr

/-- `collector.Snapshot`: the result of a single collection cycle.
`ProcessNames` is a Go map `pid -> name`; a missing entry reads as `""`. -/
structure Snapshot where
  timestamp : Int
  processes : List ProcessSample
  processNames : Nat → Option String

/-- One entry of the NVML `GetComputeRunningProcesses` result: a process
currently holding GPU memory (`nvml.ProcessInfo`). -/
structure ProcessInfo where
  pid : Nat
  usedGpuMemory : Nat
deriving DecidableEq, Repr

/-- One entry of the NVML `GetProcessUtilization` result: a windowed
per-process utilization sample (`nvml.ProcessUtilizationSample`). -/
structure ProcessUtilizationSample where
  pid : Nat
  timeStamp : Nat
  smUtil : Nat
deriving DecidableEq, Repr

/-- The `utilMap` loop of `Collector.collectProcesses`: build a
PID → max `SmUtil` map from the utilization samples.  A Go map read of a
missing key yields `0`, so the map is modelled as a total function that is
`0` off its written keys. -/
def buildUtilMap (utilSamples : List ProcessUtilizationSample) : Nat → Nat :=
  utilSamples.foldl
    (fun utilMap s =>
      if s.smUtil > utilMap s.pid then
        fun q => if q = s.pid then s.smUtil else utilMap q
      else
        utilMap)
    (fun _ => 0)

/-- The `lastSampleTime` update of `Collector.collectProcesses`: if any
utilization samples were returned, advance the stored timestamp to the
maximum of its previous value and every sample timestamp (`maxTS` starts
at `lastTS`); otherwise leave it untouched. -/
def advanceHighWaterMark (lastTS : Nat)
    (utilSamples : List ProcessUtilizationSample) : Nat :=
  if utilSamples.isEmpty then lastTS
  else
    utilSamples.foldl
      (fun maxTS s => if s.timeStamp > maxTS then s.timeStamp else maxTS)
      lastTS

/-- `Collector.collectProcesses` for one GPU, as a pure function of the
results of the two NVML queries.  `lastTS` is the stored
`lastSampleTime[gpuIndex]`; the returned pair is the new stored value and
the emitted samples.  When `procs` is empty the Go code returns `nil`
before the utilization query is even issued, leaving `lastSampleTime`
untouched. -/
def collectProcesses (gpuIndex : Int) (lastTS : Nat)
    (procs : List ProcessInfo)
    (utilSamples : List ProcessUtilizationSample) :
    Nat × List ProcessSample :=
  if procs.isEmpty then (lastTS, [])
  else
    let newTS := advanceHighWaterMark lastTS utilSamples
    let utilMap := buildUtilMap utilSamples
    (newTS,
      procs.map fun p =>
        { gpu := gpuIndex
          pid := p.pid
          usedMemory := p.usedGpuMemory
          smUtil := utilMap p.pid })

/-- Spec-side characterisation (for comparison with `buildUtilMap`, not a
translation of code): the maximum utilization percentage observed across
all utilization samples for a given process id, `0` when the id appears in
no sample. -/
def maxUtilSpec (pid : Nat) : List ProcessUtilizationSample → Nat
  | [] => 0
  | s :: rest =>
      if s.pid = pid then Nat.max s.smUtil (maxUtilSpec pid rest)
      else maxUtilSpec pid rest

/-- Spec-side characterisation: the maximum sample timestamp in a batch of
utilization samples (`0` for the empty batch). -/
def maxTimeStampSpec : List ProcessUtilizationSample → Nat
  | [] => 0
  | s :: rest => Nat.max s.timeStamp (maxTimeStampSpec rest)

/-! ## Idle tracker data model (`internal/idle/tracker.go`) -/

/-- `idle.processKey`: uniquely identifies a process on a specific GPU. -/
structure processKey where
  gpu : Int
  pid : Nat
deriving DecidableEq, Repr

/-- `idle.processState`: idle state tracked for a single process.  The Go
zero value of `IdleSince` is modelled as `0`. -/
structure processState where
  lastActiveTime : Int
  lastSeenTime : Int
  firstSeenTime : Int
  isIdle : Bool
  idleSince : Int
deriving DecidableEq, Repr

/-- `idle.ProcessIdleState`: the exported view of one process's idle
state. -/
structure ProcessIdleState where
  gpu : Int
  pid : Nat
  processName : String
  usedMemory : Nat
  smUtil : Nat
  isIdle : Bool
  idleDuration : Int
  idleMemory : Nat
deriving DecidableEq, Repr

/-- The tracker's state table `map[processKey]*processState`, modelled as a
function into `Option`. -/
def StateMap : Type := processKey → Option processState

/-- `idle.Tracker`: per-process idle state across polling cycles. -/
structure Tracker where
  states : StateMap
  staleTimeout : Int

/-- `time.Second` in nanoseconds. -/
def timeSecond : Int := 1000000000

/-- `idle.NewTracker`: empty state table, 30 second stale timeout. -/
def NewTracker : Tracker :=
  { states := fun _ => none
    staleTimeout := 30 * timeSecond }

/-- The key of a sample, as built at the top of the `Update` loop:
`processKey{GPU: p.GPU, PID: p.PID}`. -/
def sampleKey (p : ProcessSample) : processKey :=
  { gpu := p.gpu, pid := p.pid }

/-- The body of the `Update` loop for one sample `p` at cycle timestamp
`now`: look up / create / mutate the state under `sampleKey p` and emit
the `ProcessIdleState` view for this sample.  Mutation through the
`*processState` pointer is modelled by writing the updated record back
into the map. -/
def classifySample (states : StateMap) (names : Nat → Option String)
    (now : Int) (p : ProcessSample) : StateMap × ProcessIdleState :=
  let key := sampleKey p
  let st : processState :=
    match states key with
    | none =>
        -- New process: assume active at first sight; the idle transition
        -- is skipped on the first observation (`goto emit`).
        { lastActiveTime := now
          lastSeenTime := now
          firstSeenTime := now
          isIdle := false
          idleSince := 0 }
    | some st0 =>
        let st1 := { st0 with lastSeenTime := now }
        if p.smUtil > 0 then
          let st2 := { st1 with lastActiveTime := now }
          if st2.isIdle then { st2 with isIdle := false } else st2
        else
          if st1.isIdle then st1
          else { st1 with isIdle := true, idleSince := now }
  let idleDuration : Int := if st.isIdle then now - st.idleSince else 0
  let idleMemory : Nat := if st.isIdle then p.usedMemory else 0
  (fun k => if k = key then some st else states k,
    { gpu := p.gpu
      pid := p.pid
      processName := (names p.pid).getD ""
      usedMemory := p.usedMemory
      smUtil := p.smUtil
      isIdle := st.isIdle
      idleDuration := idleDuration
      idleMemory := idleMemory })

/-- The `for _, p := range snap.Processes` loop of `Update`: classify each
sample in batch order, threading the state table and appending one view
per sample. -/
def updateLoop (names : Nat → Option String) (now : Int) :
    StateMap → List ProcessSample → StateMap × List ProcessIdleState
  | states, [] => (states, [])
  | states, p :: rest =>
      let r := classifySample states names now p
      let r' := updateLoop names now r.1 rest
      (r'.1, r.2 :: r'.2)

/-- The `seen` map of `Update`: by the end of the classification loop it
holds exactly the keys of the samples in the batch. -/
def seenIn (batch : List ProcessSample) (k : processKey) : Bool :=
  batch.any fun p => decide (sampleKey p = k)

/-- The stale-process cleanup loop at the end of `Update`: delete every
tracked key that is not in the current batch and whose `LastSeenTime` is
more than `staleTimeout` before `now`. -/
def sweepStale (staleTimeout : Int) (now : Int)
    (batch : List ProcessSample) (states : StateMap) : StateMap :=
  fun k =>
    match states k with
    | none => none
    | some st =>
        if seenIn batch k = false ∧ now - st.lastSeenTime > staleTimeout
        then none
        else some st

/-- `Tracker.Update`: classify every sample of the snapshot, sweep stale
entries, and return the updated tracker together with the emitted views
(the Go method mutates the receiver and returns the views). -/
def Tracker.Update (t : Tracker) (snap : Snapshot) :
    Tracker × List ProcessIdleState :=
  let now := snap.timestamp
  let r := updateLoop snap.processNames now t.states snap.processes
  ({ t with states := sweepStale t.staleTimeout now snap.processes r.1 },
    r.2)

/-- A sequence of polling cycles: fold `Tracker.Update` over a list of
snapshots. -/
def runUpdates (t : Tracker) : List Snapshot → Tracker
  | [] => t
  | snap :: rest => runUpdates (t.Update snap).1 rest

/-! ## Lemmas about the sample merger -/

/-- Evaluating the `utilMap` fold at a pid: the running map at `pid` is the
maximum of its initial value and the maximum `smUtil` of the samples for
`pid`. -/
lemma utilMap_foldl_eval (samples : List ProcessUtilizationSample) :
    ∀ (m : Nat → Nat) (pid : Nat),
      (samples.foldl
        (fun utilMap s =>
          if s.smUtil > utilMap s.pid then
            fun q => if q = s.pid then s.smUtil else utilMap q
          else utilMap) m) pid
      = Nat.max (m pid) (maxUtilSpec pid samples) := by
  induction samples with
  | nil =>
      intro m pid
      simp [maxUtilSpec]
  | cons s rest ih =>
      intro m pid
      simp only [List.foldl_cons]
      rw [ih]
      by_cases h1 : s.smUtil > m s.pid
      · rw [if_pos h1]
        by_cases h2 : s.pid = pid
        · subst h2
          simp only [maxUtilSpec, if_pos rfl, Nat.max_def]
          split_ifs <;> omega
        · have h2' : ¬ pid = s.pid := fun h => h2 h.symm
          simp [maxUtilSpec, h2, h2']
      · rw [if_neg h1]
        by_cases h2 : s.pid = pid
        · subst h2
          simp only [maxUtilSpec, if_pos rfl, Nat.max_def]
          split_ifs <;> omega
        · simp [maxUtilSpec, h2]

/-- `buildUtilMap` computes exactly the per-pid maximum utilization of the
sample window (`0` when the pid has no sample). -/
lemma buildUtilMap_eq (samples : List ProcessUtilizationSample) (pid : Nat) :
    buildUtilMap samples pid = maxUtilSpec pid samples := by
  unfold buildUtilMap
  rw [utilMap_foldl_eval]
  exact Nat.zero_max _

/-- Evaluating the `maxTS` fold: the result is the maximum of the starting
value and the maximum sample timestamp. -/
lemma maxTS_foldl_eval (samples : List ProcessUtilizationSample) :
    ∀ (a : Nat),
      samples.foldl
        (fun maxTS s => if s.timeStamp > maxTS then s.timeStamp else maxTS) a
      = Nat.max a (maxTimeStampSpec samples) := by
  induction samples with
  | nil =>
      intro a
      simp [maxTimeStampSpec]
  | cons s rest ih =>
      intro a
      simp only [List.foldl_cons]
      rw [ih]
      simp only [maxTimeStampSpec, Nat.max_def]
      split_ifs <;> omega

/-- Every sample timestamp is bounded by the batch maximum. -/
lemma timeStamp_le_max (samples : List ProcessUtilizationSample)
    (s : ProcessUtilizationSample) (hs : s ∈ samples) :
    s.timeStamp ≤ maxTimeStampSpec samples := by
  induction samples with
  | nil => cases hs
  | cons x rest ih =>
      rcases List.mem_cons.mp hs with h | h
      · subst h
        simp [maxTimeStampSpec]
      · have := ih h
        simp [maxTimeStampSpec]
        omega

/-- `advanceHighWaterMark` never decreases the stored mark, and leaves it
unchanged on an empty sample batch. -/
lemma advanceHighWaterMark_ge (lastTS : Nat)
    (samples : List ProcessUtilizationSample) :
    lastTS ≤ advanceHighWaterMark lastTS samples := by
  unfold advanceHighWaterMark
  by_cases h : samples.isEmpty
  · simp [h]
  · rw [if_neg h, maxTS_foldl_eval]
    exact Nat.le_max_left _ _

/-- C7 — For every cycle of the Sample Merger, exactly one sample is
emitted per memory-holding process, in the order of the memory-holder
list, with utilization equal to the maximum utilization percentage over
the window's samples for that pid (`0` when the pid has no sample); pids
with utilization samples but no held memory are emitted nowhere.  This is
captured by the emitted list being exactly the map over the memory-holder
list. -/
theorem claim_C7_merge_exact (gpuIndex : Int) (lastTS : Nat)
    (procs : List ProcessInfo)
    (utilSamples : List ProcessUtilizationSample) :
    (collectProcesses gpuIndex lastTS procs utilSamples).2
      = procs.map fun p =>
          { gpu := gpuIndex
            pid := p.pid
            usedMemory := p.usedGpuMemory
            smUtil := maxUtilSpec p.pid utilSamples } := by
  unfold collectProcesses
  by_cases h : procs.isEmpty
  · rw [if_pos h]
    rw [List.isEmpty_iff] at h
    simp [h]
  · rw [if_neg h]
    simp only
    apply List.map_congr_left
    intro p _
    rw [buildUtilMap_eq]

/-- C8 — The per-device high-water mark never decreases across a call to
the Sample Merger; it is unchanged when the utilization query returns no
samples; and whenever the inputs respect the query's interface contract
(no memory holders ⇒ the query is skipped and returns nothing; returned
samples are from the window since the stored mark, so their timestamps are
at least `lastTS`), a non-empty sample batch advances the mark to the
maximum sample timestamp seen this call. -/
theorem claim_C8_high_water_mark (gpuIndex : Int) (lastTS : Nat)
    (procs : List ProcessInfo)
    (utilSamples : List ProcessUtilizationSample) :
    lastTS ≤ (collectProcesses gpuIndex lastTS procs utilSamples).1 ∧
    (utilSamples = [] →
      (collectProcesses gpuIndex lastTS procs utilSamples).1 = lastTS) ∧
    ((procs = [] → utilSamples = []) →
      (∀ s ∈ utilSamples, lastTS ≤ s.timeStamp) →
      utilSamples ≠ [] →
      (collectProcesses gpuIndex lastTS procs utilSamples).1
        = maxTimeStampSpec utilSamples) := by
  refine ⟨?_, ?_, ?_⟩
  · unfold collectProcesses
    by_cases h : procs.isEmpty
    · simp [h]
    · rw [if_neg h]
      exact advanceHighWaterMark_ge lastTS utilSamples
  · intro hs
    subst hs
    unfold collectProcesses advanceHighWaterMark
    by_cases h : procs.isEmpty <;> simp [h]
  · intro hskip hwin hne
    have hprocs : ¬ procs.isEmpty := by
      intro h
      rw [List.isEmpty_iff] at h
      exact hne (hskip h)
    unfold collectProcesses
    rw [if_neg hprocs]
    simp only
    unfold advanceHighWaterMark
    rw [if_neg (by simpa [List.isEmpty_iff] using hne), maxTS_foldl_eval]
    rcases List.exists_mem_of_ne_nil utilSamples hne with ⟨s, hs⟩
    have h1 := hwin s hs
    have h2 := timeStamp_le_max utilSamples s hs
    exact Nat.max_eq_right (le_trans h1 h2)

/-- Witness for C8 at a concrete call: one memory holder, one sample with
timestamp `7` past a stored mark of `5`. -/
theorem claim_C8_witness :
    (([{ pid := 1, usedGpuMemory := 100 }] : List ProcessInfo)
        = [] → ([{ pid := 1, timeStamp := 7, smUtil := 30 }]
                  : List ProcessUtilizationSample) = []) ∧
    (∀ s ∈ ([{ pid := 1, timeStamp := 7, smUtil := 30 }]
              : List ProcessUtilizationSample), 5 ≤ s.timeStamp) ∧
    ([{ pid := 1, timeStamp := 7, smUtil := 30 }]
        : List ProcessUtilizationSample) ≠ [] ∧
    (collectProcesses 0 5 [{ pid := 1, usedGpuMemory := 100 }]
        [{ pid := 1, timeStamp := 7, smUtil := 30 }]).1
      = maxTimeStampSpec [{ pid := 1, timeStamp := 7, smUtil := 30 }] :=
  ⟨by decide,
   by decide,
   by decide,
   (claim_C8_high_water_mark 0 5 [{ pid := 1, usedGpuMemory := 100 }]
      [{ pid := 1, timeStamp := 7, smUtil := 30 }]).2.2
     (by decide)
     (by decide)
     (by decide)⟩

/-! ## Lemmas about the idle tracker -/

/-- First observation of a key: a fresh state is created (active, all
timestamps `now`) and the emitted view is the grace view. -/
lemma classifySample_fresh (states : StateMap) (names : Nat → Option String)
    (now : Int) (p : ProcessSample) (h : states (sampleKey p) = none) :
    classifySample states names now p =
      (fun k => if k = sampleKey p then
          some { lastActiveTime := now
                 lastSeenTime := now
                 firstSeenTime := now
                 isIdle := false
                 idleSince := 0 }
        else states k,
       { gpu := p.gpu
         pid := p.pid
         processName := (names p.pid).getD ""
         usedMemory := p.usedMemory
         smUtil := p.smUtil
         isIdle := false
         idleDuration := 0
         idleMemory := 0 }) := by
  simp [classifySample, h]

/-- Previously tracked key with positive utilization: the state becomes
active with `lastSeenTime = lastActiveTime = now`, and the emitted view is
the active view. -/
lemma classifySample_active (states : StateMap) (names : Nat → Option String)
    (now : Int) (p : ProcessSample) (st0 : processState)
    (h : states (sampleKey p) = some st0) (hu : p.smUtil > 0) :
    classifySample states names now p =
      (fun k => if k = sampleKey p then
          some { st0 with lastSeenTime := now
                          lastActiveTime := now
                          isIdle := false }
        else states k,
       { gpu := p.gpu
         pid := p.pid
         processName := (names p.pid).getD ""
         usedMemory := p.usedMemory
         smUtil := p.smUtil
         isIdle := false
         idleDuration := 0
         idleMemory := 0 }) := by
  cases hb : st0.isIdle <;>
    simp [classifySample, h, hu, Nat.pos_iff_ne_zero.mp hu, hb]

/-- Previously tracked active key with utilization `0`: transition to
idle, `idleSince = now`, and the emitted view reports zero idle duration
(the transition cycle). -/
lemma classifySample_idle_transition (states : StateMap)
    (names : Nat → Option String) (now : Int) (p : ProcessSample)
    (st0 : processState) (h : states (sampleKey p) = some st0)
    (hi : st0.isIdle = false) (hu : p.smUtil = 0) :
    classifySample states names now p =
      (fun k => if k = sampleKey p then
          some { st0 with lastSeenTime := now
                          isIdle := true
                          idleSince := now }
        else states k,
       { gpu := p.gpu
         pid := p.pid
         processName := (names p.pid).getD ""
         usedMemory := p.usedMemory
         smUtil := p.smUtil
         isIdle := true
         idleDuration := 0
         idleMemory := p.usedMemory }) := by
  simp [classifySample, h, hi, hu]

/-- Previously tracked idle key with utilization `0`: only `lastSeenTime`
changes, and the emitted view reports `now - idleSince` and the held
memory. -/
lemma classifySample_idle_stay (states : StateMap)
    (names : Nat → Option String) (now : Int) (p : ProcessSample)
    (st0 : processState) (h : states (sampleKey p) = some st0)
    (hi : st0.isIdle = true) (hu : p.smUtil = 0) :
    classifySample states names now p =
      (fun k => if k = sampleKey p then
          some { st0 with lastSeenTime := now }
        else states k,
       { gpu := p.gpu
         pid := p.pid
         processName := (names p.pid).getD ""
         usedMemory := p.usedMemory
         smUtil := p.smUtil
         isIdle := true
         idleDuration := now - st0.idleSince
         idleMemory := p.usedMemory }) := by
  simp [classifySample, h, hi, hu]

/-- Classifying a sample touches no key other than the sample's own. -/
lemma classifySample_frame (states : StateMap) (names : Nat → Option String)
    (now : Int) (p : ProcessSample) (k : processKey)
    (hk : k ≠ sampleKey p) :
    (classifySample states names now p).1 k = states k := by
  simp [classifySample, hk]

/-- After classifying a sample, its own key is tracked. -/
lemma classifySample_self_isSome (states : StateMap)
    (names : Nat → Option String) (now : Int) (p : ProcessSample) :
    ((classifySample states names now p).1 (sampleKey p)).isSome = true := by
  simp [classifySample]

/-- Classification never removes a key from the state table. -/
lemma classifySample_keeps (states : StateMap) (names : Nat → Option String)
    (now : Int) (p : ProcessSample) (k : processKey)
    (h : (states k).isSome = true) :
    ((classifySample states names now p).1 k).isSome = true := by
  by_cases hk : k = sampleKey p
  · subst hk
    exact classifySample_self_isSome states names now p
  · rw [classifySample_frame states names now p k hk]
    exact h

/-- The gpu/pid fields of the emitted view are those of the sample. -/
lemma classifySample_view_key (states : StateMap)
    (names : Nat → Option String) (now : Int) (p : ProcessSample) :
    (classifySample states names now p).2.gpu = p.gpu ∧
    (classifySample states names now p).2.pid = p.pid := by
  constructor <;> rfl

/-- The classification loop emits exactly one view per sample. -/
lemma updateLoop_length (names : Nat → Option String) (now : Int)
    (states : StateMap) (batch : List ProcessSample) :
    (updateLoop names now states batch).2.length = batch.length := by
  induction batch generalizing states with
  | nil => rfl
  | cons p rest ih => simp [updateLoop, ih]

/-- The classification loop touches no key outside the batch. -/
lemma updateLoop_frame (names : Nat → Option String) (now : Int)
    (states : StateMap) (batch : List ProcessSample) (k : processKey)
    (h : seenIn batch k = false) :
    (updateLoop names now states batch).1 k = states k := by
  induction batch generalizing states with
  | nil => rfl
  | cons p rest ih =>
      simp only [seenIn, List.any_cons, Bool.or_eq_false_iff] at h
      have hp : k ≠ sampleKey p := by
        intro hk
        simp [hk] at h
      simp only [updateLoop]
      rw [ih _ (by simpa [seenIn] using h.2),
        classifySample_frame states names now p k hp]

/-- The classification loop never removes a key from the state table. -/
lemma updateLoop_keeps (names : Nat → Option String) (now : Int)
    (states : StateMap) (batch : List ProcessSample) (k : processKey)
    (h : (states k).isSome = true) :
    ((updateLoop names now states batch).1 k).isSome = true := by
  induction batch generalizing states with
  | nil => exact h
  | cons p rest ih =>
      exact ih _ (classifySample_keeps states names now p k h)

/-- Every key of the batch is tracked once the loop has run. -/
lemma updateLoop_seen_isSome (names : Nat → Option String) (now : Int)
    (states : StateMap) (batch : List ProcessSample) (k : processKey)
    (h : seenIn batch k = true) :
    ((updateLoop names now states batch).1 k).isSome = true := by
  induction batch generalizing states with
  | nil => simp [seenIn] at h
  | cons p rest ih =>
      simp only [seenIn, List.any_cons, Bool.or_eq_true] at h
      by_cases hp : sampleKey p = k
      · subst hp
        exact updateLoop_keeps names now _ rest _
          (classifySample_self_isSome states names now p)
      · have : seenIn rest k = true := by
          rcases h with h | h
          · exact absurd (of_decide_eq_true h) hp
          · simpa [seenIn] using h
        exact ih _ this

/-- The loop over a concatenation: the states thread through and the views
concatenate. -/
lemma updateLoop_append (names : Nat → Option String) (now : Int)
    (states : StateMap) (xs ys : List ProcessSample) :
    updateLoop names now states (xs ++ ys) =
      ((updateLoop names now (updateLoop names now states xs).1 ys).1,
       (updateLoop names now states xs).2
         ++ (updateLoop names now (updateLoop names now states xs).1 ys).2) := by
  induction xs generalizing states with
  | nil => simp [updateLoop]
  | cons p rest ih =>
      simp only [List.cons_append, updateLoop]
      rw [List.append_eq, ih]

/-- Every emitted view carries the gpu/pid of some sample in the batch. -/
lemma updateLoop_views_from_batch (names : Nat → Option String) (now : Int)
    (states : StateMap) (batch : List ProcessSample)
    (v : ProcessIdleState) (hv : v ∈ (updateLoop names now states batch).2) :
    ∃ p ∈ batch, v.gpu = p.gpu ∧ v.pid = p.pid := by
  induction batch generalizing states with
  | nil => cases hv
  | cons p rest ih =>
      simp only [updateLoop, List.mem_cons] at hv
      rcases hv with hv | hv
      · refine ⟨p, List.mem_cons_self p rest, ?_, ?_⟩ <;> rw [hv] <;> rfl
      · rcases ih _ hv with ⟨q, hq, h1, h2⟩
        exact ⟨q, List.mem_cons_of_mem p hq, h1, h2⟩

/-- The sweep leaves every key of the current batch untouched. -/
lemma sweepStale_seen (timeout now : Int) (batch : List ProcessSample)
    (states : StateMap) (k : processKey) (h : seenIn batch k = true) :
    sweepStale timeout now batch states k = states k := by
  unfold sweepStale
  cases states k with
  | none => rfl
  | some st => simp [h]

/-- The sweep on a key absent from the batch: the entry is deleted exactly
when `now - lastSeenTime > staleTimeout`, otherwise kept unchanged. -/
lemma sweepStale_unseen (timeout now : Int) (batch : List ProcessSample)
    (states : StateMap) (k : processKey) (st : processState)
    (h : seenIn batch k = false) (hs : states k = some st) :
    sweepStale timeout now batch states k =
      if now - st.lastSeenTime > timeout then none else some st := by
  unfold sweepStale
  rw [hs]
  by_cases hc : now - st.lastSeenTime > timeout
  · simp [h, hc]
  · simp [h, hc]

/-- The sweep never changes a present entry's value and never creates
entries: each key is either untouched or deleted under the staleness
condition. -/
lemma sweepStale_cases (timeout now : Int) (batch : List ProcessSample)
    (states : StateMap) (k : processKey) :
    sweepStale timeout now batch states k = states k ∨
    (sweepStale timeout now batch states k = none ∧
      seenIn batch k = false ∧
      ∃ st, states k = some st ∧ now - st.lastSeenTime > timeout) := by
  unfold sweepStale
  cases hs : states k with
  | none => exact Or.inl rfl
  | some st =>
      by_cases hc : seenIn batch k = false ∧ now - st.lastSeenTime > timeout
      · exact Or.inr ⟨by simp [hc], hc.1, st, rfl, hc.2⟩
      · exact Or.inl (by simp [hc])

/-- A view emitted for a sample classified as not idle carries zero idle
duration and zero idle memory. -/
lemma classifySample_view_zeros (states : StateMap)
    (names : Nat → Option String) (now : Int) (p : ProcessSample)
    (h : (classifySample states names now p).2.isIdle = false) :
    (classifySample states names now p).2.idleDuration = 0 ∧
    (classifySample states names now p).2.idleMemory = 0 := by
  rcases hs : states (sampleKey p) with _ | st0
  · rw [classifySample_fresh states names now p hs]
    exact ⟨rfl, rfl⟩
  · by_cases hu : p.smUtil > 0
    · rw [classifySample_active states names now p st0 hs hu]
      exact ⟨rfl, rfl⟩
    · have hu0 : p.smUtil = 0 := by omega
      cases hi : st0.isIdle
      · rw [classifySample_idle_transition states names now p st0 hs hi hu0]
          at h
        simp at h
      · rw [classifySample_idle_stay states names now p st0 hs hi hu0] at h
        simp at h

/-- Every view emitted by the classification loop is the view of
`classifySample` on some sample of the batch (at some intermediate state
table). -/
lemma updateLoop_views_exist (names : Nat → Option String) (now : Int)
    (states : StateMap) (batch : List ProcessSample) (v : ProcessIdleState)
    (hv : v ∈ (updateLoop names now states batch).2) :
    ∃ (states' : StateMap) (p : ProcessSample), p ∈ batch ∧
      v = (classifySample states' names now p).2 := by
  induction batch generalizing states with
  | nil => cases hv
  | cons p rest ih =>
      simp only [updateLoop, List.mem_cons] at hv
      rcases hv with hv | hv
      · exact ⟨states, p, List.mem_cons_self p rest, hv⟩
      · rcases ih _ hv with ⟨states', q, hq, hvq⟩
        exact ⟨states', q, List.mem_cons_of_mem p hq, hvq⟩

/-- C1 — For every view emitted for a sample at cycle timestamp `now`:
if `isIdle` is false then `idleDuration` and `idleMemory` are exactly
zero (also stated for every view of a full `Update` call), and if
`isIdle` is true then `idleDuration = now - idleSince` of the sample's
tracked state and `idleMemory` is the sample's held memory. -/
theorem claim_C1_derived_view :
    (∀ (t : Tracker) (snap : Snapshot) (v : ProcessIdleState),
      v ∈ (t.Update snap).2 → v.isIdle = false →
      v.idleDuration = 0 ∧ v.idleMemory = 0) ∧
    (∀ (states : StateMap) (names : Nat → Option String) (now : Int)
        (p : ProcessSample),
      ((classifySample states names now p).2.isIdle = false →
        (classifySample states names now p).2.idleDuration = 0 ∧
        (classifySample states names now p).2.idleMemory = 0) ∧
      ((classifySample states names now p).2.isIdle = true →
        ∃ st, (classifySample states names now p).1 (sampleKey p) = some st ∧
          st.isIdle = true ∧
          (classifySample states names now p).2.idleDuration
            = now - st.idleSince ∧
          (classifySample states names now p).2.idleMemory
            = p.usedMemory)) := by
  constructor
  · intro t snap v hv hfalse
    rcases updateLoop_views_exist snap.processNames snap.timestamp t.states
        snap.processes v hv with ⟨states', p, _, hvp⟩
    subst hvp
    exact classifySample_view_zeros states' snap.processNames snap.timestamp
      p hfalse
  · intro states names now p
    refine ⟨classifySample_view_zeros states names now p, ?_⟩
    rcases hs : states (sampleKey p) with _ | st0
    · rw [classifySample_fresh states names now p hs]
      intro h
      simp at h
    · by_cases hu : p.smUtil > 0
      · rw [classifySample_active states names now p st0 hs hu]
        intro h
        simp at h
      · have hu0 : p.smUtil = 0 := by omega
        cases hi : st0.isIdle
        · rw [classifySample_idle_transition states names now p st0 hs hi hu0]
          intro _
          exact ⟨{ st0 with lastSeenTime := now, isIdle := true, idleSince := now }, by simp, rfl, by simp, rfl⟩
        · rw [classifySample_idle_stay states names now p st0 hs hi hu0]
          intro _
          exact ⟨{ st0 with lastSeenTime := now }, by simp, hi, rfl, rfl⟩

/-- Witness for C1 at a concrete call: a fresh key observed with
utilization 0 yields a non-idle view with zero idle duration and memory. -/
theorem claim_C1_witness :
    (classifySample (fun _ => none) (fun _ => none) 3
        { gpu := 0, pid := 9, usedMemory := 17, smUtil := 0 }).2.isIdle
      = false ∧
    (classifySample (fun _ => none) (fun _ => none) 3
        { gpu := 0, pid := 9, usedMemory := 17, smUtil := 0 }).2.idleDuration
      = 0 ∧
    (classifySample (fun _ => none) (fun _ => none) 3
        { gpu := 0, pid := 9, usedMemory := 17, smUtil := 0 }).2.idleMemory
      = 0 :=
  ⟨by decide,
   ((claim_C1_derived_view.2 (fun _ => none) (fun _ => none) 3
      { gpu := 0, pid := 9, usedMemory := 17, smUtil := 0 }).1
     (by decide)).1,
   ((claim_C1_derived_view.2 (fun _ => none) (fun _ => none) 3
      { gpu := 0, pid := 9, usedMemory := 17, smUtil := 0 }).1
     (by decide)).2⟩

/-- C2 — A key not previously tracked, observed for the first time at
cycle timestamp `t` with any utilization value: after processing its
first occurrence the tracker holds
`{firstSeenAt=t, lastSeenAt=t, lastActiveAt=t, isIdle=false}` under that
key, and the view emitted for that occurrence in the cycle's output has
`isIdle=false`, `idleDuration=0`, `idleMemory=0`. -/
theorem claim_C2_first_observation (t : Tracker) (snap : Snapshot)
    (p : ProcessSample) (ps rest : List ProcessSample)
    (hbatch : snap.processes = ps ++ p :: rest)
    (hfirst : ∀ q ∈ ps, sampleKey q ≠ sampleKey p)
    (huntracked : t.states (sampleKey p) = none) :
    (updateLoop snap.processNames snap.timestamp t.states (ps ++ [p])).1
        (sampleKey p)
      = some { lastActiveTime := snap.timestamp
               lastSeenTime := snap.timestamp
               firstSeenTime := snap.timestamp
               isIdle := false
               idleSince := 0 } ∧
    (t.Update snap).2[ps.length]?
      = some { gpu := p.gpu
               pid := p.pid
               processName := (snap.processNames p.pid).getD ""
               usedMemory := p.usedMemory
               smUtil := p.smUtil
               isIdle := false
               idleDuration := 0
               idleMemory := 0 } := by
  have hseen : seenIn ps (sampleKey p) = false := by
    simp only [seenIn, List.any_eq_false, decide_eq_true_eq]
    exact hfirst
  have hmid :
      (updateLoop snap.processNames snap.timestamp t.states ps).1
          (sampleKey p) = none := by
    rw [updateLoop_frame _ _ _ _ _ hseen]
    exact huntracked
  constructor
  · rw [updateLoop_append]
    simp only [updateLoop]
    rw [classifySample_fresh _ _ _ _ hmid]
    simp
  · show (updateLoop snap.processNames snap.timestamp t.states
        snap.processes).2[ps.length]? = _
    rw [hbatch, updateLoop_append]
    rw [List.getElem?_append_right (by simp [updateLoop_length])]
    rw [updateLoop_length, Nat.sub_self]
    simp only [updateLoop]
    rw [classifySample_fresh _ _ _ _ hmid]
    simp

/-- Witness for C2: first observation of key `(0, 7)` with utilization 0
at timestamp 100. -/
theorem claim_C2_witness :
    ({ timestamp := 100,
       processes := [{ gpu := 0, pid := 7, usedMemory := 42, smUtil := 0 }],
       processNames := fun _ => none } : Snapshot).processes
      = [] ++ { gpu := 0, pid := 7, usedMemory := 42, smUtil := 0 } :: [] ∧
    (∀ q ∈ ([] : List ProcessSample),
      sampleKey q ≠ sampleKey { gpu := 0, pid := 7, usedMemory := 42,
                                smUtil := 0 }) ∧
    NewTracker.states
        (sampleKey { gpu := 0, pid := 7, usedMemory := 42, smUtil := 0 })
      = none ∧
    ((updateLoop (fun _ => none) 100 NewTracker.states
        ([] ++ [{ gpu := 0, pid := 7, usedMemory := 42, smUtil := 0 }])).1
        (sampleKey { gpu := 0, pid := 7, usedMemory := 42, smUtil := 0 })
      = some { lastActiveTime := 100
               lastSeenTime := 100
               firstSeenTime := 100
               isIdle := false
               idleSince := 0 } ∧
    (NewTracker.Update
        { timestamp := 100,
          processes := [{ gpu := 0, pid := 7, usedMemory := 42,
                          smUtil := 0 }],
          processNames := fun _ => none }).2[(0 : Nat)]?
      = some { gpu := 0
               pid := 7
               processName := ""
               usedMemory := 42
               smUtil := 0
               isIdle := false
               idleDuration := 0
               idleMemory := 0 }) :=
  ⟨rfl, by simp, rfl,
   claim_C2_first_observation NewTracker
     { timestamp := 100,
       processes := [{ gpu := 0, pid := 7, usedMemory := 42, smUtil := 0 }],
       processNames := fun _ => none }
     { gpu := 0, pid := 7, usedMemory := 42, smUtil := 0 } [] []
     rfl (by simp) rfl⟩

/-- C4 — A previously tracked, currently idle key observed with
utilization > 0: the state becomes active with
`lastActiveAt = lastSeenAt = now`, and the emitted view has
`isIdle=false`, `idleDuration=0`, `idleMemory=0`, regardless of the
previous idle streak. -/
theorem claim_C4_active_clears_idle (states : StateMap)
    (names : Nat → Option String) (now : Int) (p : ProcessSample)
    (st0 : processState) (h : states (sampleKey p) = some st0)
    (_hidle : st0.isIdle = true) (hu : p.smUtil > 0) :
    (classifySample states names now p).1 (sampleKey p)
      = some { st0 with lastSeenTime := now
                        lastActiveTime := now
                        isIdle := false } ∧
    (classifySample states names now p).2.isIdle = false ∧
    (classifySample states names now p).2.idleDuration = 0 ∧
    (classifySample states names now p).2.idleMemory = 0 := by
  rw [classifySample_active states names now p st0 h hu]
  exact ⟨by simp, rfl, rfl, rfl⟩

/-- Witness for C4: a key idle since timestamp 2 observed with utilization
80 at timestamp 50. -/
theorem claim_C4_witness :
    (fun k => if k = ({ gpu := 1, pid := 5 } : processKey) then
        some ({ lastActiveTime := 0, lastSeenTime := 40, firstSeenTime := 0,
                isIdle := true, idleSince := 2 } : processState)
      else none)
      (sampleKey { gpu := 1, pid := 5, usedMemory := 6, smUtil := 80 })
      = some { lastActiveTime := 0, lastSeenTime := 40, firstSeenTime := 0,
               isIdle := true, idleSince := 2 } ∧
    ({ lastActiveTime := 0, lastSeenTime := 40, firstSeenTime := 0,
       isIdle := true, idleSince := 2 } : processState).isIdle = true ∧
    (80 : Nat) > 0 ∧
    ((classifySample
        (fun k => if k = ({ gpu := 1, pid := 5 } : processKey) then
            some ({ lastActiveTime := 0, lastSeenTime := 40,
                    firstSeenTime := 0, isIdle := true,
                    idleSince := 2 } : processState)
          else none)
        (fun _ => none) 50
        { gpu := 1, pid := 5, usedMemory := 6, smUtil := 80 }).1
        (sampleKey { gpu := 1, pid := 5, usedMemory := 6, smUtil := 80 })
      = some { lastActiveTime := 50, lastSeenTime := 50, firstSeenTime := 0,
               isIdle := false, idleSince := 2 } ∧
    (classifySample
        (fun k => if k = ({ gpu := 1, pid := 5 } : processKey) then
            some ({ lastActiveTime := 0, lastSeenTime := 40,
                    firstSeenTime := 0, isIdle := true,
                    idleSince := 2 } : processState)
          else none)
        (fun _ => none) 50
        { gpu := 1, pid := 5, usedMemory := 6, smUtil := 80 }).2.isIdle
      = false ∧
    (classifySample
        (fun k => if k = ({ gpu := 1, pid := 5 } : processKey) then
            some ({ lastActiveTime := 0, lastSeenTime := 40,
                    firstSeenTime := 0, isIdle := true,
                    idleSince := 2 } : processState)
          else none)
        (fun _ => none) 50
        { gpu := 1, pid := 5, usedMemory := 6, smUtil := 80 }).2.idleDuration
      = 0 ∧
    (classifySample
        (fun k => if k = ({ gpu := 1, pid := 5 } : processKey) then
            some ({ lastActiveTime := 0, lastSeenTime := 40,
                    firstSeenTime := 0, isIdle := true,
                    idleSince := 2 } : processState)
          else none)
        (fun _ => none) 50
        { gpu := 1, pid := 5, usedMemory := 6, smUtil := 80 }).2.idleMemory
      = 0) :=
  ⟨by decide, rfl, by decide,
   by
    have h := claim_C4_active_clears_idle
      (fun k => if k = ({ gpu := 1, pid := 5 } : processKey) then
          some ({ lastActiveTime := 0, lastSeenTime := 40,
                  firstSeenTime := 0, isIdle := true,
                  idleSince := 2 } : processState)
        else none)
      (fun _ => none) 50
      { gpu := 1, pid := 5, usedMemory := 6, smUtil := 80 }
      { lastActiveTime := 0, lastSeenTime := 40, firstSeenTime := 0,
        isIdle := true, idleSince := 2 }
      (by decide) rfl (by decide)
    exact h⟩

/-- C9 — Processing a sample changes only the state stored under the
sample's own `(device, pid)` key; in particular the same pid on any other
device index is untouched, so multi-device tracking is independent. -/
theorem claim_C9_frame_effect (states : StateMap)
    (names : Nat → Option String) (now : Int) (p : ProcessSample) :
    (∀ k, k ≠ sampleKey p →
      (classifySample states names now p).1 k = states k) ∧
    (∀ g', g' ≠ p.gpu →
      (classifySample states names now p).1 { gpu := g', pid := p.pid }
        = states { gpu := g', pid := p.pid }) := by
  constructor
  · intro k hk
    exact classifySample_frame states names now p k hk
  · intro g' hg
    apply classifySample_frame
    intro h
    exact hg (congrArg processKey.gpu h)

/-- Witness for C9: pid 5 on device 1 is processed; the entry for pid 5 on
device 0 is untouched. -/
theorem claim_C9_witness :
    (({ gpu := 0, pid := 5 } : processKey)
        ≠ sampleKey { gpu := 1, pid := 5, usedMemory := 6, smUtil := 0 }) ∧
    (classifySample (fun _ => none) (fun _ => none) 11
        { gpu := 1, pid := 5, usedMemory := 6, smUtil := 0 }).1
        { gpu := 0, pid := 5 }
      = (fun _ => none : StateMap) { gpu := 0, pid := 5 } :=
  ⟨by decide,
   (claim_C9_frame_effect (fun _ => none) (fun _ => none) 11
      { gpu := 1, pid := 5, usedMemory := 6, smUtil := 0 }).1
     { gpu := 0, pid := 5 } (by decide)⟩

/-- A polling cycle whose batch holds a single sample (test fixture). -/
def oneSampleSnap (ts g : Int) (pid mem util : Nat)
    (names : Nat → Option String) : Snapshot :=
  { timestamp := ts
    processes := [{ gpu := g, pid := pid, usedMemory := mem, smUtil := util }]
    processNames := names }

/-- C3 — Two-strikes idle rule: a key first observed with utilization 0 at
`t0`, observed with utilization 0 again at `t1 > t0`, is idle at `t1` with
`idleDuration = 0` (transition cycle sets `idleSince = t1`), and still
idle at `t2 > t1` with `idleDuration = t2 - t1`. -/
theorem claim_C3_two_strikes (tr : Tracker) (g : Int)
    (pid mem0 mem1 mem2 : Nat)
    (names0 names1 names2 : Nat → Option String) (t0 t1 t2 : Int)
    (h0 : tr.states { gpu := g, pid := pid } = none)
    (_h01 : t0 < t1) (_h12 : t1 < t2) :
    ((tr.Update (oneSampleSnap t0 g pid mem0 0 names0)).1.Update
        (oneSampleSnap t1 g pid mem1 0 names1)).2
      = [{ gpu := g, pid := pid, processName := (names1 pid).getD "",
           usedMemory := mem1, smUtil := 0, isIdle := true,
           idleDuration := 0, idleMemory := mem1 }] ∧
    ((((tr.Update (oneSampleSnap t0 g pid mem0 0 names0)).1.Update
        (oneSampleSnap t1 g pid mem1 0 names1)).1).Update
        (oneSampleSnap t2 g pid mem2 0 names2)).2
      = [{ gpu := g, pid := pid, processName := (names2 pid).getD "",
           usedMemory := mem2, smUtil := 0, isIdle := true,
           idleDuration := t2 - t1, idleMemory := mem2 }] := by
  constructor
  · simp [Tracker.Update, updateLoop, classifySample, sweepStale, seenIn,
      sampleKey, oneSampleSnap, h0]
  · simp [Tracker.Update, updateLoop, classifySample, sweepStale, seenIn,
      sampleKey, oneSampleSnap, h0]

/-- Witness for C3: key `(0, 1)` with 1 GiB held, observed idle at
timestamps 0, 5 s and 15 s (the concrete scenario of the spec). -/
theorem claim_C3_witness :
    NewTracker.states { gpu := 0, pid := 1 } = none ∧
    (0 : Int) < 5 * timeSecond ∧ 5 * timeSecond < 15 * timeSecond ∧
    ((NewTracker.Update
        (oneSampleSnap 0 0 1 1073741824 0 (fun _ => none))).1.Update
        (oneSampleSnap (5 * timeSecond) 0 1 1073741824 0 (fun _ => none))).2
      = [{ gpu := 0, pid := 1, processName := "",
           usedMemory := 1073741824, smUtil := 0, isIdle := true,
           idleDuration := 0, idleMemory := 1073741824 }] ∧
    ((((NewTracker.Update
        (oneSampleSnap 0 0 1 1073741824 0 (fun _ => none))).1.Update
        (oneSampleSnap (5 * timeSecond) 0 1 1073741824 0
          (fun _ => none))).1).Update
        (oneSampleSnap (15 * timeSecond) 0 1 1073741824 0
          (fun _ => none))).2
      = [{ gpu := 0, pid := 1, processName := "",
           usedMemory := 1073741824, smUtil := 0, isIdle := true,
           idleDuration := 15 * timeSecond - 5 * timeSecond,
           idleMemory := 1073741824 }] :=
  ⟨rfl, by norm_num [timeSecond], by norm_num [timeSecond],
   (claim_C3_two_strikes NewTracker 0 1 1073741824 1073741824 1073741824
      (fun _ => none) (fun _ => none) (fun _ => none)
      0 (5 * timeSecond) (15 * timeSecond) rfl
      (by norm_num [timeSecond]) (by norm_num [timeSecond])).1,
   (claim_C3_two_strikes NewTracker 0 1 1073741824 1073741824 1073741824
      (fun _ => none) (fun _ => none) (fun _ => none)
      0 (5 * timeSecond) (15 * timeSecond) rfl
      (by norm_num [timeSecond]) (by norm_num [timeSecond])).2⟩

/-- C10 — `Update` emits one view per occurrence in the batch, and only
the first occurrence of a never-seen key receives the first-observation
grace: a fresh key appearing twice with utilization 0 in one batch is
emitted first as active, then as idle (transition view, zero duration)
within that single cycle. -/
theorem claim_C10_duplicate_occurrences :
    (∀ (t : Tracker) (snap : Snapshot),
      (t.Update snap).2.length = snap.processes.length) ∧
    (∀ (tr : Tracker) (g : Int) (pid mem mem' : Nat) (now : Int)
        (names : Nat → Option String),
      tr.states { gpu := g, pid := pid } = none →
      (tr.Update
          { timestamp := now
            processes :=
              [{ gpu := g, pid := pid, usedMemory := mem, smUtil := 0 },
               { gpu := g, pid := pid, usedMemory := mem', smUtil := 0 }]
            processNames := names }).2
        = [{ gpu := g, pid := pid, processName := (names pid).getD "",
             usedMemory := mem, smUtil := 0, isIdle := false,
             idleDuration := 0, idleMemory := 0 },
           { gpu := g, pid := pid, processName := (names pid).getD "",
             usedMemory := mem', smUtil := 0, isIdle := true,
             idleDuration := 0, idleMemory := mem' }]) := by
  constructor
  · intro t snap
    exact updateLoop_length snap.processNames snap.timestamp t.states
      snap.processes
  · intro tr g pid mem mem' now names h0
    simp [Tracker.Update, updateLoop, classifySample, sweepStale, seenIn,
      sampleKey, h0]

/-- Witness for C10: fresh key `(0, 3)` appearing twice with utilization 0
in one batch at timestamp 8. -/
theorem claim_C10_witness :
    NewTracker.states { gpu := 0, pid := 3 } = none ∧
    (NewTracker.Update
        { timestamp := 8
          processes :=
            [{ gpu := 0, pid := 3, usedMemory := 10, smUtil := 0 },
             { gpu := 0, pid := 3, usedMemory := 11, smUtil := 0 }]
          processNames := fun _ => none }).2
      = [{ gpu := 0, pid := 3, processName := "",
           usedMemory := 10, smUtil := 0, isIdle := false,
           idleDuration := 0, idleMemory := 0 },
         { gpu := 0, pid := 3, processName := "",
           usedMemory := 11, smUtil := 0, isIdle := true,
           idleDuration := 0, idleMemory := 11 }] :=
  ⟨rfl,
   claim_C10_duplicate_occurrences.2 NewTracker 0 3 10 11 8
     (fun _ => none) rfl⟩

/-! ## Tracker state invariant -/

/-- Per-entry invariant at a time bound: the entry was last seen no later
than the bound, and an idle entry's `idleSince` does not exceed its
`lastSeenTime`. -/
def StInv (bound : Int) (st : processState) : Prop :=
  st.lastSeenTime ≤ bound ∧
  (st.isIdle = true → st.idleSince ≤ st.lastSeenTime)

/-- Table-wide invariant: every tracked entry satisfies `StInv`. -/
def TableInv (bound : Int) (states : StateMap) : Prop :=
  ∀ k st, states k = some st → StInv bound st

/-- `StInv` weakens along larger time bounds. -/
lemma StInv.mono {b b' : Int} {st : processState} (h : StInv b st)
    (hb : b ≤ b') : StInv b' st :=
  ⟨le_trans h.1 hb, h.2⟩

/-- Classifying one sample at time `now ≥ bound` preserves the table
invariant at bound `now`. -/
lemma classifySample_inv (states : StateMap) (names : Nat → Option String)
    (b now : Int) (p : ProcessSample) (hb : b ≤ now)
    (h : TableInv b states) :
    TableInv now (classifySample states names now p).1 := by
  intro k st hk
  by_cases hkey : k = sampleKey p
  · subst hkey
    rcases hs : states (sampleKey p) with _ | st0
    · rw [classifySample_fresh states names now p hs] at hk
      simp at hk
      subst hk
      exact ⟨le_refl now, by intro h'; cases h'⟩
    · by_cases hu : p.smUtil > 0
      · rw [classifySample_active states names now p st0 hs hu] at hk
        simp at hk
        subst hk
        exact ⟨le_refl now, by intro h'; cases h'⟩
      · have hu0 : p.smUtil = 0 := by omega
        cases hi : st0.isIdle
        · rw [classifySample_idle_transition states names now p st0 hs hi
            hu0] at hk
          simp at hk
          subst hk
          exact ⟨le_refl now, fun _ => le_refl now⟩
        · rw [classifySample_idle_stay states names now p st0 hs hi hu0]
            at hk
          simp at hk
          subst hk
          have h1 := h (sampleKey p) st0 hs
          exact ⟨le_refl now, fun _ => le_trans (h1.2 hi) (le_trans h1.1 hb)⟩
  · rw [classifySample_frame states names now p k hkey] at hk
    exact (h k st hk).mono hb

/-- The classification loop preserves the table invariant at the cycle
timestamp. -/
lemma updateLoop_inv (names : Nat → Option String) (b now : Int)
    (states : StateMap) (batch : List ProcessSample) (hb : b ≤ now)
    (h : TableInv b states) :
    TableInv now (updateLoop names now states batch).1 := by
  induction batch generalizing states b with
  | nil =>
      exact fun k st hk => ((h k st hk).mono hb)
  | cons p rest ih =>
      exact ih now _ (le_refl now) (classifySample_inv states names b now p hb h)

/-- The sweep only removes entries, so it preserves the table invariant. -/
lemma sweepStale_inv (timeout now b : Int) (batch : List ProcessSample)
    (states : StateMap) (h : TableInv b states) :
    TableInv b (sweepStale timeout now batch states) := by
  intro k st hk
  rcases sweepStale_cases timeout now batch states k with hc | hc
  · exact h k st (hc ▸ hk)
  · rw [hc.1] at hk
    cases hk

/-- A full `Update` at a timestamp past the bound re-establishes the
invariant at the cycle timestamp. -/
lemma Update_inv (t : Tracker) (snap : Snapshot) (b : Int)
    (hb : b ≤ snap.timestamp) (h : TableInv b t.states) :
    TableInv snap.timestamp (t.Update snap).1.states := by
  exact sweepStale_inv _ _ _ _ _
    (updateLoop_inv snap.processNames b snap.timestamp t.states
      snap.processes hb h)

/-- Running a monotone sequence of cycles preserves the invariant at some
bound. -/
lemma runUpdates_inv (snaps : List Snapshot) :
    ∀ (t : Tracker) (b : Int), TableInv b t.states →
    List.Chain' (fun a c => a.timestamp ≤ c.timestamp) snaps →
    (∀ s, snaps.head? = some s → b ≤ s.timestamp) →
    ∃ b', TableInv b' (runUpdates t snaps).states := by
  induction snaps with
  | nil =>
      intro t b h _ _
      exact ⟨b, h⟩
  | cons s rest ih =>
      intro t b h hchain hhead
      have hb : b ≤ s.timestamp := hhead s rfl
      have hrest := (List.chain'_cons'.mp hchain)
      exact ih (t.Update s).1 s.timestamp (Update_inv t s b hb h) hrest.2
        (fun s' hs' => hrest.1 s' hs')

/-- C5 — Along any sequence of cycles with non-decreasing timestamps from
a fresh tracker, every idle tracked entry has `idleSince ≤ lastSeenAt`;
moreover entries are created by classification only under an observed
sample's key, classification never deletes an entry, and the sweep is the
only deleter — it removes an entry only when the key is absent from the
batch and over the stale timeout, and otherwise leaves the table
pointwise unchanged. -/
theorem claim_C5_invariants :
    (∀ (snaps : List Snapshot),
      List.Chain' (fun a c => a.timestamp ≤ c.timestamp) snaps →
      ∀ k st, (runUpdates NewTracker snaps).states k = some st →
        st.isIdle = true → st.idleSince ≤ st.lastSeenTime) ∧
    (∀ (states : StateMap) (names : Nat → Option String) (now : Int)
        (p : ProcessSample) (k : processKey) (st : processState),
      states k = some st →
      ∃ st', (classifySample states names now p).1 k = some st') ∧
    (∀ (states : StateMap) (names : Nat → Option String) (now : Int)
        (p : ProcessSample) (k : processKey) (st' : processState),
      (classifySample states names now p).1 k = some st' →
      (∃ st, states k = some st) ∨ k = sampleKey p) ∧
    (∀ (timeout now : Int) (batch : List ProcessSample)
        (states : StateMap) (k : processKey),
      sweepStale timeout now batch states k = states k ∨
      (sweepStale timeout now batch states k = none ∧
        seenIn batch k = false ∧
        ∃ st, states k = some st ∧ now - st.lastSeenTime > timeout)) := by
  refine ⟨?_, ?_, ?_, ?_⟩
  · intro snaps hchain k st hlook hidle
    cases snaps with
    | nil =>
        cases hlook
    | cons s rest =>
        have hstart : TableInv s.timestamp NewTracker.states := by
          intro k' st' h'
          cases h'
        rcases runUpdates_inv (s :: rest) NewTracker s.timestamp hstart
            hchain (fun s' hs' => by cases hs'; exact le_refl _)
          with ⟨b', hinv⟩
        exact (hinv k st hlook).2 hidle
  · intro states names now p k st h
    have h1 : (states k).isSome = true := by rw [h]; rfl
    have h2 := classifySample_keeps states names now p k h1
    rcases Option.isSome_iff_exists.mp h2 with ⟨st', hst'⟩
    exact ⟨st', hst'⟩
  · intro states names now p k st' h
    by_cases hk : k = sampleKey p
    · exact Or.inr hk
    · rw [classifySample_frame states names now p k hk] at h
      exact Or.inl ⟨st', h⟩
  · intro timeout now batch states k
    exact sweepStale_cases timeout now batch states k

/-- Witness for C5: two monotone cycles at timestamps 0 and 1 s leave
key `(0, 1)` idle with `idleSince = 1 s = lastSeenAt`. -/
theorem claim_C5_witness :
    List.Chain' (fun a c => a.timestamp ≤ c.timestamp)
      [oneSampleSnap 0 0 1 5 0 (fun _ => none),
       oneSampleSnap timeSecond 0 1 5 0 (fun _ => none)] ∧
    (runUpdates NewTracker
        [oneSampleSnap 0 0 1 5 0 (fun _ => none),
         oneSampleSnap timeSecond 0 1 5 0 (fun _ => none)]).states
        { gpu := 0, pid := 1 }
      = some { lastActiveTime := 0, lastSeenTime := timeSecond,
               firstSeenTime := 0, isIdle := true,
               idleSince := timeSecond } ∧
    ({ lastActiveTime := 0, lastSeenTime := timeSecond,
       firstSeenTime := 0, isIdle := true,
       idleSince := timeSecond } : processState).idleSince
      ≤ ({ lastActiveTime := 0, lastSeenTime := timeSecond,
           firstSeenTime := 0, isIdle := true,
           idleSince := timeSecond } : processState).lastSeenTime :=
  ⟨by simp [oneSampleSnap, timeSecond],
   by decide,
   claim_C5_invariants.1
     [oneSampleSnap 0 0 1 5 0 (fun _ => none),
      oneSampleSnap timeSecond 0 1 5 0 (fun _ => none)]
     (by simp [oneSampleSnap, timeSecond])
     { gpu := 0, pid := 1 }
     { lastActiveTime := 0, lastSeenTime := timeSecond,
       firstSeenTime := 0, isIdle := true, idleSince := timeSecond }
     (by decide) rfl⟩

/-- C6 — After a full `Update` at timestamp `now`: a key of the cycle's
batch is always tracked afterwards (so only absent keys can be deleted);
a key absent from the batch is deleted exactly when
`now - lastSeenAt > staleTimeout` (strictly), and otherwise keeps its
state unchanged; every emitted view belongs to a key of the batch (absent
keys produce no view); and a key left untracked is, on a later
observation, processed under the first-observation grace rule
(`isIdle=false`, zero duration and memory). -/
theorem claim_C6_staleness_sweep (t : Tracker) (snap : Snapshot)
    (k : processKey) :
    (seenIn snap.processes k = true →
      ((t.Update snap).1.states k).isSome = true) ∧
    (seenIn snap.processes k = false →
      (∀ st, t.states k = some st →
        (t.Update snap).1.states k =
          if snap.timestamp - st.lastSeenTime > t.staleTimeout then none
          else some st) ∧
      (t.states k = none → (t.Update snap).1.states k = none)) ∧
    (∀ v, v ∈ (t.Update snap).2 →
      seenIn snap.processes { gpu := v.gpu, pid := v.pid } = true) ∧
    ((t.Update snap).1.states k = none →
      ∀ (names' : Nat → Option String) (now' : Int) (p : ProcessSample),
        sampleKey p = k →
        (classifySample (t.Update snap).1.states names' now' p).2.isIdle
            = false ∧
        (classifySample (t.Update snap).1.states names' now' p).2.idleDuration
            = 0 ∧
        (classifySample (t.Update snap).1.states names' now' p).2.idleMemory
            = 0) := by
  refine ⟨?_, ?_, ?_, ?_⟩
  · intro hseen
    show ((sweepStale t.staleTimeout snap.timestamp snap.processes
      (updateLoop snap.processNames snap.timestamp t.states
        snap.processes).1) k).isSome = true
    rw [sweepStale_seen _ _ _ _ _ hseen]
    exact updateLoop_seen_isSome snap.processNames snap.timestamp t.states
      snap.processes k hseen
  · intro hseen
    have hframe : (updateLoop snap.processNames snap.timestamp t.states
        snap.processes).1 k = t.states k :=
      updateLoop_frame snap.processNames snap.timestamp t.states
        snap.processes k hseen
    constructor
    · intro st hst
      show sweepStale t.staleTimeout snap.timestamp snap.processes
        (updateLoop snap.processNames snap.timestamp t.states
          snap.processes).1 k = _
      rw [sweepStale_unseen t.staleTimeout snap.timestamp snap.processes _
        k st hseen (by rw [hframe]; exact hst)]
    · intro hst
      show sweepStale t.staleTimeout snap.timestamp snap.processes
        (updateLoop snap.processNames snap.timestamp t.states
          snap.processes).1 k = none
      unfold sweepStale
      rw [hframe, hst]
  · intro v hv
    rcases updateLoop_views_from_batch snap.processNames snap.timestamp
        t.states snap.processes v hv with ⟨p, hp, h1, h2⟩
    simp only [seenIn, List.any_eq_true]
    exact ⟨p, hp, by simp [sampleKey, h1, h2]⟩
  · intro hnone names' now' p hkey
    have hfresh : (t.Update snap).1.states (sampleKey p) = none := by
      rw [hkey]
      exact hnone
    rw [classifySample_fresh _ names' now' p hfresh]
    exact ⟨rfl, rfl, rfl⟩

/-- Witness for C6: a tracker holding key `(0, 9)` last seen at 0 with a
10-tick stale timeout, updated with an empty batch at timestamp 11. -/
theorem claim_C6_witness :
    seenIn ([] : List ProcessSample) { gpu := 0, pid := 9 } = false ∧
    (fun k' => if k' = ({ gpu := 0, pid := 9 } : processKey) then
        some ({ lastActiveTime := 0, lastSeenTime := 0, firstSeenTime := 0,
                isIdle := false, idleSince := 0 } : processState)
      else none) { gpu := 0, pid := 9 }
      = some { lastActiveTime := 0, lastSeenTime := 0, firstSeenTime := 0,
               isIdle := false, idleSince := 0 } ∧
    (({ states := fun k' =>
          if k' = ({ gpu := 0, pid := 9 } : processKey) then
            some ({ lastActiveTime := 0, lastSeenTime := 0,
                    firstSeenTime := 0, isIdle := false,
                    idleSince := 0 } : processState)
          else none
        staleTimeout := 10 } : Tracker).Update
        { timestamp := 11, processes := [], processNames := fun _ => none
          }).1.states { gpu := 0, pid := 9 }
      = if (11 : Int) - 0 > 10 then none
        else some { lastActiveTime := 0, lastSeenTime := 0,
                    firstSeenTime := 0, isIdle := false, idleSince := 0 } :=
  ⟨by decide, by decide,
   ((claim_C6_staleness_sweep
      { states := fun k' =>
          if k' = ({ gpu := 0, pid := 9 } : processKey) then
            some ({ lastActiveTime := 0, lastSeenTime := 0,
                    firstSeenTime := 0, isIdle := false,
                    idleSince := 0 } : processState)
          else none
        staleTimeout := 10 }
      { timestamp := 11, processes := [], processNames := fun _ => none }
      { gpu := 0, pid := 9 }).2.1 (by decide)).1
     { lastActiveTime := 0, lastSeenTime := 0, firstSeenTime := 0,
       isIdle := false, idleSince := 0 }
     (by decide)⟩

end GpuIdleExporter
